import Mathlib

/-!
# NftUpdateData: request handlers of `main.go`

A shallow embedding of the three HTTP handlers (`createNFTClassHandler`,
`mintNFTHandler`, `updateNFTDataHandler`) and of `setupClientContext`.

The handlers talk to libraries that are not part of the repository (the JSON
decoder, gRPC, the Cosmos SDK keyring, the Coreum client).  Every such call is a
field of `Env`; a handler is a function from an environment and a request body
to the trace of calls it makes (`Event`), in program order.  Go errors are
represented by their text (`err.Error()`).
-/

namespace NftUpdateData

/-! ## Library data types used by the source -/

/-- Go `[]byte`. -/
abbrev Bytes := List UInt8

/-- Go `[]byte(s)`: the UTF-8 bytes of a string. -/
def utf8Bytes (s : String) : Bytes :=
  s.data.flatMap String.utf8EncodeChar

/-- Type `sdk.AccAddress` is a Go byte slice; `none` is the `nil` slice. -/
abbrev AccAddress := Option Bytes

/-- Enumeration `assetnfttypes.ClassFeature`; the source names only `freezing`. -/
inductive ClassFeature
  | burning
  | freezing
  | whitelisting
  | disable_sending
  | soulbound
  deriving DecidableEq, Repr

/-- Enumeration `assetnfttypes.DataEditor`; the source names only `owner`. -/
inductive DataEditor
  | admin
  | owner
  deriving DecidableEq, Repr

/-- Struct `assetnfttypes.DataDynamicItem` as the source fills it. -/
structure DataDynamicItem where
  Editors : List DataEditor
  Data : Bytes
  deriving DecidableEq, Repr

/-- Struct `assetnfttypes.DataDynamic`. -/
structure DataDynamic where
  Items : List DataDynamicItem
  deriving DecidableEq, Repr

/-- Struct `assetnfttypes.DataDynamicIndexedItem` as the source fills it: an
index and a byte blob, no editor list. -/
structure DataDynamicIndexedItem where
  Index : Nat
  Data : Bytes
  deriving DecidableEq, Repr

/-- Modelled from the spec: the Any-wrapped data payload (library type
`codectypes.Any`, not part of the repository) as a tagged record: the type tag,
the encoded bytes and the wrapped value. -/
structure Any where
  TypeUrl : String
  Value : Bytes
  cachedValue : DataDynamic
  deriving DecidableEq, Repr

/-- Struct `assetnfttypes.MsgIssueClass`, the fields the source sets (the
literal leaves every other field at its zero value). -/
structure MsgIssueClass where
  Issuer : String
  Symbol : String
  Name : String
  Description : String
  Features : List ClassFeature
  deriving DecidableEq, Repr

/-- Struct `assetnfttypes.MsgMint`, the fields the source sets; `Data` is a
pointer, `none` is `nil`. -/
structure MsgMint where
  Sender : String
  ClassID : String
  ID : String
  Data : Option Any
  deriving DecidableEq, Repr

/-- Struct `assetnfttypes.MsgUpdateData`, the fields the source sets. -/
structure MsgUpdateData where
  Sender : String
  ClassID : String
  ID : String
  Items : List DataDynamicIndexedItem
  deriving DecidableEq, Repr

/-- Interface `sdk.Msg`, restricted to the three message types the handlers build. -/
inductive Msg
  | issueClass (m : MsgIssueClass)
  | mint (m : MsgMint)
  | updateData (m : MsgUpdateData)
  deriving DecidableEq, Repr

/-- Handle of a dialled gRPC connection (`*grpc.ClientConn`). -/
structure ClientConn where
  target : String
  minTLSVersion : Nat
  deriving DecidableEq, Repr

/-- Handle of a codec from the encoding registry. -/
structure Codec where
  modules : List String
  deriving DecidableEq, Repr

/-- Handle of a transaction encoding configuration. -/
structure TxConfig where
  modules : List String
  deriving DecidableEq, Repr

/-- Result of `coreumconfig.NewEncodingConfig`, the fields the source reads. -/
structure EncodingConfig where
  Codec : Codec
  TxConfig : TxConfig
  deriving DecidableEq, Repr

/-- Handle of an in-memory keyring; its keys live in the library. -/
structure Keyring where
  codec : Codec
  deriving DecidableEq, Repr

/-- Key record returned by `Keyring.NewAccount`. -/
structure Record where
  name : String
  address : AccAddress
  deriving DecidableEq, Repr

/-- Modelled from the spec: the Client Context (library type `client.Context`,
not part of the repository), the aggregate of chain identifier, RPC channel,
keyring, codec, transaction encoding, broadcast mode, await-confirmation flag
and from-address.  `Context{}` has every field at its zero value. -/
structure Context where
  chainID : String
  grpcClient : Option ClientConn
  keyring : Option Keyring
  codec : Option Codec
  txConfig : Option TxConfig
  broadcastMode : String
  awaitTx : Bool
  fromAddress : AccAddress
  deriving DecidableEq, Repr

/-- Modelled from the spec: the Transaction Factory (library type
`client.Factory`, not part of the repository), the aggregate of keybase
reference, chain id, transaction encoding and simulate-and-execute flag. -/
structure Factory where
  keybase : Option Keyring
  chainID : String
  txConfig : Option TxConfig
  simulateAndExecute : Bool
  deriving DecidableEq, Repr

/-- Go composite literal `client.Context{}`. -/
def Context.zero : Context :=
  { chainID := "", grpcClient := none, keyring := none, codec := none,
    txConfig := none, broadcastMode := "", awaitTx := false, fromAddress := none }

/-- Go composite literal `client.Factory{}`. -/
def Factory.zero : Factory :=
  { keybase := none, chainID := "", txConfig := none, simulateAndExecute := false }

/-! Copy-on-write setters and getters of the context and the factory. -/

def Context.WithChainID (c : Context) (chainID : String) : Context :=
  { c with chainID := chainID }

def Context.WithGRPCClient (c : Context) (conn : ClientConn) : Context :=
  { c with grpcClient := some conn }

def Context.WithKeyring (c : Context) (k : Keyring) : Context :=
  { c with keyring := some k }

def Context.WithBroadcastMode (c : Context) (mode : String) : Context :=
  { c with broadcastMode := mode }

def Context.WithAwaitTx (c : Context) (await : Bool) : Context :=
  { c with awaitTx := await }

def Context.WithFromAddress (c : Context) (addr : AccAddress) : Context :=
  { c with fromAddress := addr }

def Context.Keyring (c : Context) : Option Keyring := c.keyring

def Context.ChainID (c : Context) : String := c.chainID

def Context.TxConfig (c : Context) : Option TxConfig := c.txConfig

def Factory.WithKeybase (f : Factory) (k : Option Keyring) : Factory :=
  { f with keybase := k }

def Factory.WithChainID (f : Factory) (chainID : String) : Factory :=
  { f with chainID := chainID }

def Factory.WithTxConfig (f : Factory) (t : Option TxConfig) : Factory :=
  { f with txConfig := t }

def Factory.WithSimulateAndExecute (f : Factory) (b : Bool) : Factory :=
  { f with simulateAndExecute := b }

/-- Result of a broadcast (`*sdk.TxResponse`); the handlers discard it. -/
structure TxResponse where
  TxHash : String
  deriving DecidableEq, Repr

/-! ## Types declared in `main.go` -/

structure Response where
  Message : String
  deriving DecidableEq, Repr

structure CreateNFTClassRequest where
  ClassSymbol : String
  ClassName : String
  ClassDescription : String
  deriving DecidableEq, Repr

structure MintNFTRequest where
  ClassSymbol : String
  NFTID : String
  Name : String
  Description : String
  deriving DecidableEq, Repr

structure UpdateNFTDataRequest where
  ClassID : String
  NFTID : String
  Name : String
  Description : String
  deriving DecidableEq, Repr

/-! ## Constants of `main.go` -/

def senderMnemonic : String :=
  "hair album dose tribe vendor risk inmate helmet size artefact sadness repeat laugh range access this target picture develop parent quarter trap either very"

def nodeAddress : String := "full-node.devnet-1.coreum.dev:9090"

/-- Constant `tls.VersionTLS12`. -/
def VersionTLS12 : Nat := 0x0303

/-- Constant `flags.BroadcastSync`. -/
def BroadcastSync : String := "sync"

def StatusBadRequest : Nat := 400

def StatusInternalServerError : Nat := 500

/-! ## The environment: every library call the source makes -/

/-- The external collaborators.  A Go call returning `(value, error)` is a
function into `Except String`, the error carried as its text. -/
structure Env where
  /-- Constant `constant.ChainIDDev`. -/
  chainID : String
  /-- Value of `sdk.GetConfig().GetFullBIP44Path()`. -/
  fullBIP44Path : String
  /-- Call `grpc.Dial(target, WithTransportCredentials(NewTLS(MinVersion)))`. -/
  grpcDial : String → Nat → Except String ClientConn
  /-- Call `coreumconfig.NewEncodingConfig(modules)`. -/
  NewEncodingConfig : List String → EncodingConfig
  /-- Call `client.NewContext(client.DefaultContextConfig(), modules)`. -/
  NewContext : List String → Context
  /-- Call `keyring.NewInMemory(codec)`. -/
  NewInMemory : Codec → Keyring
  /-- Call `Keyring.NewAccount(uid, mnemonic, passphrase, hdPath, algo)`. -/
  NewAccount : Option Keyring → String → String → String → String → String → Except String Record
  /-- Call `Record.GetAddress()`. -/
  GetAddress : Record → Except String AccAddress
  /-- Method `sdk.AccAddress.String()`. -/
  addrString : AccAddress → String
  /-- Function `assetnfttypes.BuildClassID(symbol, issuer)`. -/
  BuildClassID : String → AccAddress → String
  /-- Protobuf marshalling of a `DataDynamic`, the step of
  `codectypes.NewAnyWithValue` that can fail. -/
  protoMarshal : DataDynamic → Except String Bytes
  /-- Protobuf type URL of `DataDynamic`. -/
  dataDynamicTypeURL : String
  /-- Call `client.BroadcastTx(ctx, clientCtx, txFactory, msgs...)`. -/
  BroadcastTx : Context → Factory → List Msg → Except String TxResponse
  /-- Call `json.NewDecoder(r.Body).Decode(&req)` for each request type. -/
  decodeCreateNFTClassRequest : String → Except String CreateNFTClassRequest
  decodeMintNFTRequest : String → Except String MintNFTRequest
  decodeUpdateNFTDataRequest : String → Except String UpdateNFTDataRequest

/-- Modelled from the spec: `codectypes.NewAnyWithValue` (library function, not
part of the repository) embeds the value, tagged as a dynamic-data variant; it
fails exactly when marshalling the value fails. -/
def NewAnyWithValue (env : Env) (v : DataDynamic) : Except String Any :=
  match env.protoMarshal v with
  | .error err => .error err
  | .ok bz => .ok { TypeUrl := env.dataDynamicTypeURL, Value := bz, cachedValue := v }

/-! ## `setupClientContext` -/

/-- The four values `setupClientContext` returns; `err = none` is a `nil` error. -/
structure SetupResult where
  clientCtx : Context
  txFactory : Factory
  senderAddress : AccAddress
  err : Option String
  deriving DecidableEq, Repr

def setupClientContext (env : Env) : SetupResult :=
  -- List required modules.
  let modules : List String := ["auth"]
  match env.grpcDial nodeAddress VersionTLS12 with
  | .error err =>
    { clientCtx := Context.zero, txFactory := Factory.zero, senderAddress := none, err := some err }
  | .ok grpcClient =>
    let encodingConfig := env.NewEncodingConfig modules
    let clientCtx :=
      ((((((env.NewContext modules).WithChainID env.chainID).WithGRPCClient
        grpcClient).WithKeyring (env.NewInMemory encodingConfig.Codec)).WithBroadcastMode
        BroadcastSync).WithAwaitTx true)
    let txFactory :=
      (((Factory.zero.WithKeybase clientCtx.Keyring).WithChainID
        clientCtx.ChainID).WithTxConfig clientCtx.TxConfig).WithSimulateAndExecute true
    match env.NewAccount clientCtx.Keyring "key-name" senderMnemonic "" env.fullBIP44Path
        "secp256k1" with
    | .error err =>
      { clientCtx := Context.zero, txFactory := Factory.zero, senderAddress := none,
        err := some err }
    | .ok senderInfo =>
      match env.GetAddress senderInfo with
      | .error err =>
        { clientCtx := Context.zero, txFactory := Factory.zero, senderAddress := none,
          err := some err }
      | .ok senderAddress =>
        { clientCtx := clientCtx, txFactory := txFactory, senderAddress := senderAddress,
          err := none }

/-! ## The handlers -/

/-- One call a handler makes, as it appears in its trace. -/
inductive Event
  /-- Call `setupClientContext()`. -/
  | setup
  /-- Call `codectypes.NewAnyWithValue(&dataDynamic)`. -/
  | newAny (v : DataDynamic)
  /-- Call `client.BroadcastTx(ctx, clientCtx, txFactory, msgs...)` and what it returned. -/
  | broadcast (clientCtx : Context) (txFactory : Factory) (msgs : List Msg)
      (result : Except String TxResponse)
  /-- Call `http.Error(w, text, code)`. -/
  | httpError (text : String) (code : Nat)
  /-- Call `json.NewEncoder(w).Encode(response)`. -/
  | jsonEncode (response : Response)

/-- Go `fmt.Sprintf` of the payload template with two `%s` verbs. -/
def jsonData (name description : String) : String :=
  "\x7b\"name\": \"" ++ name ++ "\", \"description\": \"" ++ description ++ "\"\x7d"

def createNFTClassHandler (env : Env) (body : String) : List Event :=
  match env.decodeCreateNFTClassRequest body with
  | .error err => [.httpError err StatusBadRequest]
  | .ok req =>
    let r := setupClientContext env
    match r.err with
    | some err => [.setup, .httpError err StatusInternalServerError]
    | none =>
      let msgIssueClass : MsgIssueClass :=
        { Issuer := env.addrString r.senderAddress,
          Symbol := req.ClassSymbol,
          Name := req.ClassName,
          Description := req.ClassDescription,
          Features := [ClassFeature.freezing] }
      let fromCtx := r.clientCtx.WithFromAddress r.senderAddress
      let msgs := [Msg.issueClass msgIssueClass]
      match env.BroadcastTx fromCtx r.txFactory msgs with
      | .error err =>
        [.setup, .broadcast fromCtx r.txFactory msgs (.error err),
          .httpError err StatusInternalServerError]
      | .ok res =>
        [.setup, .broadcast fromCtx r.txFactory msgs (.ok res),
          .jsonEncode { Message := "NFT class created successfully" }]

def mintNFTHandler (env : Env) (body : String) : List Event :=
  match env.decodeMintNFTRequest body with
  | .error err => [.httpError err StatusBadRequest]
  | .ok req =>
    let r := setupClientContext env
    match r.err with
    | some err => [.setup, .httpError err StatusInternalServerError]
    | none =>
      let dataDynamic : DataDynamic :=
        { Items := [{ Editors := [DataEditor.owner],
                      Data := utf8Bytes (jsonData req.Name req.Description) }] }
      match NewAnyWithValue env dataDynamic with
      | .error err =>
        [.setup, .newAny dataDynamic, .httpError err StatusInternalServerError]
      | .ok anyData =>
        let classID := env.BuildClassID req.ClassSymbol r.senderAddress
        let msgMint : MsgMint :=
          { Sender := env.addrString r.senderAddress,
            ClassID := classID,
            ID := req.NFTID,
            Data := some anyData }
        let fromCtx := r.clientCtx.WithFromAddress r.senderAddress
        let msgs := [Msg.mint msgMint]
        match env.BroadcastTx fromCtx r.txFactory msgs with
        | .error err =>
          [.setup, .newAny dataDynamic, .broadcast fromCtx r.txFactory msgs (.error err),
            .httpError err StatusInternalServerError]
        | .ok res =>
          [.setup, .newAny dataDynamic, .broadcast fromCtx r.txFactory msgs (.ok res),
            .jsonEncode { Message := "NFT minted successfully" }]

def updateNFTDataHandler (env : Env) (body : String) : List Event :=
  match env.decodeUpdateNFTDataRequest body with
  | .error err => [.httpError err StatusBadRequest]
  | .ok req =>
    let r := setupClientContext env
    match r.err with
    | some err => [.setup, .httpError err StatusInternalServerError]
    | none =>
      let payload := utf8Bytes (jsonData req.Name req.Description)
      let dataDynamic : DataDynamic :=
        { Items := [{ Editors := [DataEditor.owner], Data := payload }] }
      match NewAnyWithValue env dataDynamic with
      | .error err =>
        [.setup, .newAny dataDynamic, .httpError err StatusInternalServerError]
      | .ok _ =>
        let msgUpdateData : MsgUpdateData :=
          { Sender := env.addrString r.senderAddress,
            ClassID := req.ClassID,
            ID := req.NFTID,
            Items := [{ Index := 0, Data := payload }] }
        let fromCtx := r.clientCtx.WithFromAddress r.senderAddress
        let msgs := [Msg.updateData msgUpdateData]
        match env.BroadcastTx fromCtx r.txFactory msgs with
        | .error err =>
          [.setup, .newAny dataDynamic, .broadcast fromCtx r.txFactory msgs (.error err),
            .httpError err StatusInternalServerError]
        | .ok res =>
          [.setup, .newAny dataDynamic, .broadcast fromCtx r.txFactory msgs (.ok res),
            .jsonEncode { Message := "NFT data updated successfully" }]

/-! ## Observations on traces and messages -/

/-- The message lists passed to `client.BroadcastTx`, one entry per call, in order. -/
def broadcastCalls (t : List Event) : List (List Msg) :=
  t.filterMap fun e =>
    match e with
    | .broadcast _ _ msgs _ => some msgs
    | _ => none

/-- The results `client.BroadcastTx` returned, one entry per call, in order. -/
def broadcastResults (t : List Event) : List (Except String TxResponse) :=
  t.filterMap fun e =>
    match e with
    | .broadcast _ _ _ result => some result
    | _ => none

/-- Every message passed to `client.BroadcastTx` in a trace. -/
def sentMsgs (t : List Event) : List Msg :=
  t.flatMap fun e =>
    match e with
    | .broadcast _ _ msgs _ => msgs
    | _ => []

/-- Number of `setupClientContext()` calls in a trace. -/
def setupCalls (t : List Event) : Nat :=
  (t.filter fun e =>
    match e with
    | .setup => true
    | _ => false).length

/-- The values passed to `codectypes.NewAnyWithValue` in a trace. -/
def wrappedValues (t : List Event) : List DataDynamic :=
  t.filterMap fun e =>
    match e with
    | .newAny v => some v
    | _ => none

/-- The `http.Error` calls of a trace, as (text, status code). -/
def errorReplies (t : List Event) : List (String × Nat) :=
  t.filterMap fun e =>
    match e with
    | .httpError text code => some (text, code)
    | _ => none

/-- The responses written with `json.NewEncoder(w).Encode`. -/
def confirmations (t : List Event) : List Response :=
  t.filterMap fun e =>
    match e with
    | .jsonEncode r => some r
    | _ => none

/-- The data items a message carries, in order: for each item the editor list
it declares (`none` when the item type has no `Editors` field) and its bytes. -/
def Msg.dataItems : Msg → List (Option (List DataEditor) × Bytes)
  | .issueClass _ => []
  | .mint m =>
    match m.Data with
    | none => []
    | some a => a.cachedValue.Items.map fun it => (some it.Editors, it.Data)
  | .updateData m => m.Items.map fun it => (none, it.Data)

/-! ## A mock remote and mock environments -/

/-- Modelled from the spec: an NFT instance as the mock remote stores it, its
class ID, instance ID and list of data items. -/
structure StoredNFT where
  ClassID : String
  ID : String
  Items : List DataDynamicItem
  deriving DecidableEq, Repr

/-- Modelled from the spec: the mock remote overwrites the bytes of the item at
an index; a data list without that index is left as it is. -/
def overwriteItem : List DataDynamicItem → Nat → Bytes → List DataDynamicItem
  | [], _, _ => []
  | it :: rest, 0, data => { it with Data := data } :: rest
  | it :: rest, n + 1, data => it :: overwriteItem rest n data

/-- Modelled from the spec: the mock remote applies the indexed items of an
update message in order, overwriting the item at each index. -/
def applyItems (items : List DataDynamicItem) (updates : List DataDynamicIndexedItem) :
    List DataDynamicItem :=
  updates.foldl (fun acc u => overwriteItem acc u.Index u.Data) items

/-- Modelled from the spec: the mock remote that echoes state; an update message
overwrites the data of the instance it addresses, any other message leaves the
stored instances as they are. -/
def remoteApply (store : List StoredNFT) : Msg → List StoredNFT
  | .updateData m =>
    store.map fun nft =>
      if nft.ClassID = m.ClassID ∧ nft.ID = m.ID then
        { nft with Items := applyItems nft.Items m.Items }
      else nft
  | _ => store

/-- A mock environment in which every library call succeeds.  The decoders
accept any non-empty body and reject the empty one. -/
def mockEnv : Env where
  chainID := "coreum-devnet-1"
  fullBIP44Path := "m/44h/990h/0h/0/0"
  grpcDial := fun target v => .ok { target := target, minTLSVersion := v }
  NewEncodingConfig := fun ms => { Codec := { modules := ms }, TxConfig := { modules := ms } }
  NewContext := fun ms =>
    { Context.zero with codec := some { modules := ms }, txConfig := some { modules := ms } }
  NewInMemory := fun c => { codec := c }
  NewAccount := fun _ uid _ _ _ _ => .ok { name := uid, address := some [1, 2, 3] }
  GetAddress := fun r => .ok r.address
  addrString := fun a =>
    match a with
    | none => ""
    | some _ => "devcore1operator"
  BuildClassID := fun symbol issuer =>
    match issuer with
    | none => symbol ++ "-"
    | some _ => symbol ++ "-devcore1operator"
  protoMarshal := fun v => .ok (v.Items.flatMap fun it => it.Data)
  dataDynamicTypeURL := "/coreum.asset.nft.v1.DataDynamic"
  BroadcastTx := fun _ _ _ => .ok { TxHash := "5F2A" }
  decodeCreateNFTClassRequest := fun body =>
    match body.data with
    | [] => .error "EOF"
    | _ => .ok { ClassSymbol := "ART", ClassName := body, ClassDescription := "demo" }
  decodeMintNFTRequest := fun body =>
    match body.data with
    | [] => .error "EOF"
    | _ => .ok { ClassSymbol := "ART", NFTID := "1", Name := body, Description := "first" }
  decodeUpdateNFTDataRequest := fun body =>
    match body.data with
    | [] => .error "EOF"
    | _ =>
      .ok { ClassID := "ART-devcore1operator", NFTID := "1", Name := body,
            Description := "first" }

/-- The mock environment with a node that cannot be dialled. -/
def mockEnvDialFails : Env :=
  { mockEnv with grpcDial := fun _ _ => .error "connection refused" }

/-- The mock environment with a seed phrase the keyring rejects. -/
def mockEnvAccountFails : Env :=
  { mockEnv with NewAccount := fun _ _ _ _ _ _ => .error "invalid mnemonic" }

/-- The mock environment with a key record that yields no address. -/
def mockEnvAddressFails : Env :=
  { mockEnv with GetAddress := fun _ => .error "no public key" }

/-- The mock environment with a remote that rejects every transaction. -/
def mockEnvRemoteRejects : Env :=
  { mockEnv with BroadcastTx := fun _ _ _ => .error "execution error: class not found" }

/-- The mock environment with a marshaller that fails. -/
def mockEnvMarshalFails : Env :=
  { mockEnv with protoMarshal := fun _ => .error "marshal failed" }

/-- The broadcast discipline of a handler trace: broadcast is invoked at most
once, each invocation with exactly one message; the confirmation message is
written if and only if that invocation returned no error, and nothing else is
ever encoded; when the invocation returned an error, the only reply is
`http.Error` with exactly the error text and status 500, and no confirmation. -/
def BroadcastDiscipline (t : List Event) (confirmation : String) : Prop :=
  (broadcastCalls t).length ≤ 1 ∧
  (∀ msgs ∈ broadcastCalls t, msgs.length = 1) ∧
  (confirmations t = [{ Message := confirmation }] ↔
    ∃ res, broadcastResults t = [Except.ok res]) ∧
  (confirmations t = [] ∨ confirmations t = [{ Message := confirmation }]) ∧
  (∀ e, broadcastResults t = [Except.error e] →
    errorReplies t = [(e, 500)] ∧ confirmations t = [])

/-- All messages of a list applied to the mock remote, in order. -/
def remoteApplyAll (store : List StoredNFT) (msgs : List Msg) : List StoredNFT :=
  msgs.foldl remoteApply store

/-! ## Theorems -/

/-- C1: for a decoded mint request and a successful setup, every broadcast call
of `mintNFTHandler` carries the single message with Sender the sender address in
string form, ClassID `BuildClassID(classSymbol, sender address)`, ID the request
NFT ID and Data the dynamic-data value wrapping exactly one item with editors
`[owner]` and, as bytes, the UTF-8 bytes of the template
`{"name": "%s", "description": "%s"}` filled with the request name and
description; and that call is made whenever wrapping the value succeeds. -/
theorem mintNFTHandler_message (env : Env) (body : String) (req : MintNFTRequest)
    (hdec : env.decodeMintNFTRequest body = .ok req)
    (hsetup : (setupClientContext env).err = none) :
    (∀ msgs ∈ broadcastCalls (mintNFTHandler env body), ∃ bz,
      msgs = [Msg.mint
        { Sender := env.addrString (setupClientContext env).senderAddress,
          ClassID := env.BuildClassID req.ClassSymbol (setupClientContext env).senderAddress,
          ID := req.NFTID,
          Data := some
            { TypeUrl := env.dataDynamicTypeURL,
              Value := bz,
              cachedValue :=
                { Items := [{ Editors := [DataEditor.owner],
                              Data := ("\x7b\"name\": \"" ++ req.Name ++ "\", \"description\": \"" ++
                                req.Description ++ "\"\x7d").toUTF8.data.toList }] } } }]) ∧
    (∀ bz, env.protoMarshal
        { Items := [{ Editors := [DataEditor.owner],
                              Data := ("\x7b\"name\": \"" ++ req.Name ++ "\", \"description\": \"" ++
                                req.Description ++ "\"\x7d").toUTF8.data.toList }] } = .ok bz →
      broadcastCalls (mintNFTHandler env body) = [[Msg.mint
        { Sender := env.addrString (setupClientContext env).senderAddress,
          ClassID := env.BuildClassID req.ClassSymbol (setupClientContext env).senderAddress,
          ID := req.NFTID,
          Data := some
            { TypeUrl := env.dataDynamicTypeURL,
              Value := bz,
              cachedValue :=
                { Items := [{ Editors := [DataEditor.owner],
                              Data := ("\x7b\"name\": \"" ++ req.Name ++ "\", \"description\": \"" ++
                                req.Description ++ "\"\x7d").toUTF8.data.toList }] } } }]]) := by
  have hp : utf8Bytes (jsonData req.Name req.Description)
      = ("\x7b\"name\": \"" ++ req.Name ++ "\", \"description\": \"" ++
          req.Description ++ "\"\x7d").toUTF8.data.toList := rfl
  simp only [← hp]
  constructor
  · intro msgs hmem
    unfold mintNFTHandler at hmem
    simp only [hdec, hsetup, NewAnyWithValue] at hmem
    cases hm : env.protoMarshal
        { Items := [{ Editors := [DataEditor.owner],
                      Data := utf8Bytes (jsonData req.Name req.Description) }] } with
    | error e => simp [hm, broadcastCalls] at hmem
    | ok bz =>
      refine ⟨bz, ?_⟩
      simp only [hm] at hmem
      split at hmem <;> simp [broadcastCalls] at hmem <;> exact hmem
  · intro bz hm
    unfold mintNFTHandler
    simp only [hdec, hsetup, NewAnyWithValue, hm]
    split <;> simp [broadcastCalls]

/-- Witness of C1 in the mock environment: for name `Piece One` and description
`first` the item bytes are the bytes of
`{"name": "Piece One", "description": "first"}`. -/
theorem mintNFTHandler_message_witness :
    mockEnv.decodeMintNFTRequest "Piece One"
        = .ok { ClassSymbol := "ART", NFTID := "1", Name := "Piece One", Description := "first" } ∧
      (setupClientContext mockEnv).err = none ∧
      ("\x7b\"name\": \"" ++ "Piece One" ++ "\", \"description\": \"" ++ "first" ++
          "\"\x7d").toUTF8.data.toList
        = [123, 34, 110, 97, 109, 101, 34, 58, 32, 34, 80, 105, 101, 99, 101, 32, 79, 110,
                101, 34, 44, 32, 34, 100, 101, 115, 99, 114, 105, 112, 116, 105, 111, 110, 34,
                58, 32, 34, 102, 105, 114, 115, 116, 34, 125] ∧
      broadcastCalls (mintNFTHandler mockEnv "Piece One") = [[Msg.mint
        { Sender := "devcore1operator",
          ClassID := "ART-devcore1operator",
          ID := "1",
          Data := some
            { TypeUrl := "/coreum.asset.nft.v1.DataDynamic",
              Value := [123, 34, 110, 97, 109, 101, 34, 58, 32, 34, 80, 105, 101, 99, 101, 32, 79, 110,
                101, 34, 44, 32, 34, 100, 101, 115, 99, 114, 105, 112, 116, 105, 111, 110, 34,
                58, 32, 34, 102, 105, 114, 115, 116, 34, 125],
              cachedValue :=
                { Items := [{ Editors := [DataEditor.owner],
                              Data := [123, 34, 110, 97, 109, 101, 34, 58, 32, 34, 80, 105, 101, 99, 101, 32, 79, 110,
                101, 34, 44, 32, 34, 100, 101, 115, 99, 114, 105, 112, 116, 105, 111, 110, 34,
                58, 32, 34, 102, 105, 114, 115, 116, 34, 125] }] } } }]] :=
  ⟨rfl, rfl, by decide,
    (mintNFTHandler_message mockEnv "Piece One"
      { ClassSymbol := "ART", NFTID := "1", Name := "Piece One", Description := "first" }
      rfl rfl).2
      [123, 34, 110, 97, 109, 101, 34, 58, 32, 34, 80, 105, 101, 99, 101, 32, 79, 110,
                101, 34, 44, 32, 34, 100, 101, 115, 99, 114, 105, 112, 116, 105, 111, 110, 34,
                58, 32, 34, 102, 105, 114, 115, 116, 34, 125]
      (by rfl)⟩

/-- C2: for a decoded issue-class request (empty strings included) and a
successful setup, `createNFTClassHandler` makes exactly one broadcast call, with
the single message whose Issuer is the sender address in string form, whose
Symbol, Name and Description are the request fields unchanged, and whose feature
list is exactly `[freezing]`. -/
theorem createNFTClassHandler_message (env : Env) (body : String) (req : CreateNFTClassRequest)
    (hdec : env.decodeCreateNFTClassRequest body = .ok req)
    (hsetup : (setupClientContext env).err = none) :
    broadcastCalls (createNFTClassHandler env body) = [[Msg.issueClass
      { Issuer := env.addrString (setupClientContext env).senderAddress,
        Symbol := req.ClassSymbol,
        Name := req.ClassName,
        Description := req.ClassDescription,
        Features := [ClassFeature.freezing] }]] := by
  unfold createNFTClassHandler
  simp only [hdec, hsetup]
  split <;> simp [broadcastCalls]

/-- Witness of C2 in the mock environment. -/
theorem createNFTClassHandler_message_witness :
    mockEnv.decodeCreateNFTClassRequest "Artworks"
        = .ok { ClassSymbol := "ART", ClassName := "Artworks", ClassDescription := "demo" } ∧
      (setupClientContext mockEnv).err = none ∧
      broadcastCalls (createNFTClassHandler mockEnv "Artworks") = [[Msg.issueClass
        { Issuer := "devcore1operator",
          Symbol := "ART",
          Name := "Artworks",
          Description := "demo",
          Features := [ClassFeature.freezing] }]] :=
  ⟨rfl, rfl,
    createNFTClassHandler_message mockEnv "Artworks"
      { ClassSymbol := "ART", ClassName := "Artworks", ClassDescription := "demo" } rfl rfl⟩

/-- C3 as stated fails: in the mock environment the data items of the update
message differ from the data items of the mint message built for the same name
and description, because the update item declares no editor list. -/
theorem updateNFTDataHandler_item_shape_counterexample :
    (sentMsgs (updateNFTDataHandler mockEnv "Piece One")).flatMap Msg.dataItems
        = [(none, utf8Bytes (jsonData "Piece One" "first"))] ∧
      (sentMsgs (mintNFTHandler mockEnv "Piece One")).flatMap Msg.dataItems
        = [(some [DataEditor.owner], utf8Bytes (jsonData "Piece One" "first"))] ∧
      (sentMsgs (updateNFTDataHandler mockEnv "Piece One")).flatMap Msg.dataItems
        ≠ (sentMsgs (mintNFTHandler mockEnv "Piece One")).flatMap Msg.dataItems := by
  refine ⟨rfl, rfl, ?_⟩
  decide

/-- C3 amended: for a decoded update request and a successful setup, every
broadcast call of `updateNFTDataHandler` carries the single message with ClassID
and ID copied from the request, Sender the sender address in string form, and
exactly one item, with Index 0 and the payload bytes built from name and
description; that call is made whenever wrapping the value succeeds; the item
declares no editor list; and its bytes are the bytes of the item
`mintNFTHandler` sends for the same name and description. -/
theorem updateNFTDataHandler_message (env : Env) (body : String) (req : UpdateNFTDataRequest)
    (hdec : env.decodeUpdateNFTDataRequest body = .ok req)
    (hsetup : (setupClientContext env).err = none) :
    (∀ msgs ∈ broadcastCalls (updateNFTDataHandler env body),
      msgs = [Msg.updateData
        { Sender := env.addrString (setupClientContext env).senderAddress,
          ClassID := req.ClassID,
          ID := req.NFTID,
          Items := [{ Index := 0,
                      Data := utf8Bytes (jsonData req.Name req.Description) }] }]) ∧
    (∀ bz, env.protoMarshal
        { Items := [{ Editors := [DataEditor.owner],
                      Data := utf8Bytes (jsonData req.Name req.Description) }] } = .ok bz →
      broadcastCalls (updateNFTDataHandler env body) = [[Msg.updateData
        { Sender := env.addrString (setupClientContext env).senderAddress,
          ClassID := req.ClassID,
          ID := req.NFTID,
          Items := [{ Index := 0,
                      Data := utf8Bytes (jsonData req.Name req.Description) }] }]]) ∧
    (∀ m ∈ sentMsgs (updateNFTDataHandler env body), ∀ it ∈ m.dataItems, it.1 = none) ∧
    (∀ bodyM reqM, env.decodeMintNFTRequest bodyM = .ok reqM →
      reqM.Name = req.Name → reqM.Description = req.Description →
      ((sentMsgs (updateNFTDataHandler env body)).flatMap Msg.dataItems).map Prod.snd
        = ((sentMsgs (mintNFTHandler env bodyM)).flatMap Msg.dataItems).map Prod.snd) := by
  refine ⟨?_, ?_, ?_, ?_⟩
  · intro msgs hmem
    unfold updateNFTDataHandler at hmem
    simp only [hdec, hsetup, NewAnyWithValue] at hmem
    split at hmem
    · simp [broadcastCalls] at hmem
    · split at hmem <;> simp [broadcastCalls] at hmem <;> exact hmem
  · intro bz hm
    unfold updateNFTDataHandler
    simp only [hdec, hsetup, NewAnyWithValue, hm]
    split <;> simp [broadcastCalls]
  · intro m hm it hit
    unfold updateNFTDataHandler at hm
    simp only [hdec, hsetup, NewAnyWithValue] at hm
    split at hm
    · simp [sentMsgs] at hm
    · split at hm <;> simp [sentMsgs] at hm <;> subst hm <;>
        simp [Msg.dataItems] at hit <;> simp [hit]
  · intro bodyM reqM hdecM hname hdesc
    unfold updateNFTDataHandler mintNFTHandler
    simp only [hdec, hdecM, hsetup, NewAnyWithValue, hname, hdesc]
    cases hm : env.protoMarshal
        { Items := [{ Editors := [DataEditor.owner],
                      Data := utf8Bytes (jsonData req.Name req.Description) }] } with
    | error e => simp [sentMsgs]
    | ok bz =>
      simp only []
      split <;> split <;> simp [sentMsgs, Msg.dataItems]

/-- Witness of C3 amended in the mock environment. -/
theorem updateNFTDataHandler_message_witness :
    mockEnv.decodeUpdateNFTDataRequest "Piece One v2"
        = .ok { ClassID := "ART-devcore1operator", NFTID := "1", Name := "Piece One v2",
                Description := "first" } ∧
      (setupClientContext mockEnv).err = none ∧
      broadcastCalls (updateNFTDataHandler mockEnv "Piece One v2") = [[Msg.updateData
        { Sender := "devcore1operator",
          ClassID := "ART-devcore1operator",
          ID := "1",
          Items := [{ Index := 0,
                      Data := utf8Bytes (jsonData "Piece One v2" "first") }] }]] :=
  ⟨rfl, rfl,
    (updateNFTDataHandler_message mockEnv "Piece One v2"
      { ClassID := "ART-devcore1operator", NFTID := "1", Name := "Piece One v2",
        Description := "first" }
      rfl rfl).2.1 (utf8Bytes (jsonData "Piece One v2" "first")) (by simp [mockEnv])⟩

/-- C4 as stated fails: in the mock environment the update message passed to
broadcast contains a data item that carries no editor list. -/
theorem update_item_editors_counterexample :
    ¬ (∀ m ∈ sentMsgs (updateNFTDataHandler mockEnv "Piece One"),
        ∀ it ∈ m.dataItems, ∃ eds, it.1 = some eds ∧ eds ≠ []) := by
  intro h
  have h1 := h (Msg.updateData
      { Sender := "devcore1operator", ClassID := "ART-devcore1operator", ID := "1",
        Items := [{ Index := 0, Data := utf8Bytes (jsonData "Piece One" "first") }] })
    (by decide) (none, utf8Bytes (jsonData "Piece One" "first")) (by decide)
  obtain ⟨eds, heq, _⟩ := h1
  exact Option.noConfusion heq

/-- C4 amended: every data item in a message `mintNFTHandler` passes to
broadcast carries a non-empty editor list; every data item of a value either
handler passes to `NewAnyWithValue` carries a non-empty editor list; the items
of a message `updateNFTDataHandler` passes to broadcast carry no editor list. -/
theorem editors_nonempty (env : Env) (bodyM bodyU : String) :
    (∀ m ∈ sentMsgs (mintNFTHandler env bodyM),
      ∀ it ∈ m.dataItems, ∃ eds, it.1 = some eds ∧ eds ≠ []) ∧
    (∀ v ∈ wrappedValues (mintNFTHandler env bodyM) ++
          wrappedValues (updateNFTDataHandler env bodyU),
      ∀ it ∈ v.Items, it.Editors ≠ []) ∧
    (∀ m ∈ sentMsgs (updateNFTDataHandler env bodyU), ∀ it ∈ m.dataItems, it.1 = none) := by
  refine ⟨?_, ?_, ?_⟩
  · intro m hm it hit
    cases h1 : env.decodeMintNFTRequest bodyM with
    | error e => simp [mintNFTHandler, h1, sentMsgs] at hm
    | ok req =>
      cases h2 : (setupClientContext env).err with
      | some e => simp [mintNFTHandler, h1, h2, sentMsgs] at hm
      | none =>
        cases h3 : env.protoMarshal
            { Items := [{ Editors := [DataEditor.owner],
                          Data := utf8Bytes (jsonData req.Name req.Description) }] } with
        | error e => simp [mintNFTHandler, h1, h2, NewAnyWithValue, h3, sentMsgs] at hm
        | ok bz =>
          simp only [mintNFTHandler, h1, h2, NewAnyWithValue, h3] at hm
          split at hm <;> simp [sentMsgs] at hm <;> subst hm <;>
            simp [Msg.dataItems] at hit <;> subst hit <;> simp
  · intro v hv it hit
    rw [List.mem_append] at hv
    rcases hv with hv | hv
    · cases h1 : env.decodeMintNFTRequest bodyM with
      | error e => simp [mintNFTHandler, h1, wrappedValues] at hv
      | ok req =>
        cases h2 : (setupClientContext env).err with
        | some e => simp [mintNFTHandler, h1, h2, wrappedValues] at hv
        | none =>
          simp only [mintNFTHandler, h1, h2, NewAnyWithValue] at hv
          split at hv
          · simp [wrappedValues] at hv
            subst hv
            rw [List.mem_singleton] at hit
            subst hit
            exact List.cons_ne_nil _ _
          · split at hv <;> simp [wrappedValues] at hv <;> subst hv <;>
              rw [List.mem_singleton] at hit <;> subst hit <;> exact List.cons_ne_nil _ _
    · cases h1 : env.decodeUpdateNFTDataRequest bodyU with
      | error e => simp [updateNFTDataHandler, h1, wrappedValues] at hv
      | ok req =>
        cases h2 : (setupClientContext env).err with
        | some e => simp [updateNFTDataHandler, h1, h2, wrappedValues] at hv
        | none =>
          simp only [updateNFTDataHandler, h1, h2, NewAnyWithValue] at hv
          split at hv
          · simp [wrappedValues] at hv
            subst hv
            rw [List.mem_singleton] at hit
            subst hit
            exact List.cons_ne_nil _ _
          · split at hv <;> simp [wrappedValues] at hv <;> subst hv <;>
              rw [List.mem_singleton] at hit <;> subst hit <;> exact List.cons_ne_nil _ _
  · intro m hm it hit
    cases h1 : env.decodeUpdateNFTDataRequest bodyU with
    | error e => simp [updateNFTDataHandler, h1, sentMsgs] at hm
    | ok req =>
      cases h2 : (setupClientContext env).err with
      | some e => simp [updateNFTDataHandler, h1, h2, sentMsgs] at hm
      | none =>
        simp only [updateNFTDataHandler, h1, h2, NewAnyWithValue] at hm
        split at hm
        · simp [sentMsgs] at hm
        · split at hm <;> simp [sentMsgs] at hm <;> subst hm <;>
            simp [Msg.dataItems] at hit <;> simp [hit]

/-- Witness of C4 amended in the mock environment: the mint message carries one
data item, with editors `[owner]`; the update handler wraps one data item, with
editors `[owner]`; the update message carries one item, with no editor list. -/
theorem editors_nonempty_witness :
    (sentMsgs (mintNFTHandler mockEnv "Piece One") = [Msg.mint
        { Sender := "devcore1operator", ClassID := "ART-devcore1operator", ID := "1",
          Data := some
            { TypeUrl := "/coreum.asset.nft.v1.DataDynamic",
              Value := utf8Bytes (jsonData "Piece One" "first"),
              cachedValue :=
                { Items := [{ Editors := [DataEditor.owner],
                              Data := utf8Bytes (jsonData "Piece One" "first") }] } } }] ∧
      ∃ eds, (some [DataEditor.owner] : Option (List DataEditor)) = some eds ∧ eds ≠ []) ∧
    (wrappedValues (updateNFTDataHandler mockEnv "Piece One v2")
        = [{ Items := [{ Editors := [DataEditor.owner],
                         Data := utf8Bytes (jsonData "Piece One v2" "first") }] }] ∧
      [DataEditor.owner] ≠ []) ∧
    (sentMsgs (updateNFTDataHandler mockEnv "Piece One v2") = [Msg.updateData
        { Sender := "devcore1operator", ClassID := "ART-devcore1operator", ID := "1",
          Items := [{ Index := 0, Data := utf8Bytes (jsonData "Piece One v2" "first") }] }] ∧
      (none : Option (List DataEditor)) = none) :=
  ⟨⟨rfl, (editors_nonempty mockEnv "Piece One" "Piece One v2").1
      (Msg.mint
        { Sender := "devcore1operator", ClassID := "ART-devcore1operator", ID := "1",
          Data := some
            { TypeUrl := "/coreum.asset.nft.v1.DataDynamic",
              Value := utf8Bytes (jsonData "Piece One" "first"),
              cachedValue :=
                { Items := [{ Editors := [DataEditor.owner],
                              Data := utf8Bytes (jsonData "Piece One" "first") }] } } })
      (by decide)
      (some [DataEditor.owner], utf8Bytes (jsonData "Piece One" "first")) (by decide)⟩,
    ⟨rfl, (editors_nonempty mockEnv "Piece One" "Piece One v2").2.1
      { Items := [{ Editors := [DataEditor.owner],
                    Data := utf8Bytes (jsonData "Piece One v2" "first") }] }
      (by decide)
      { Editors := [DataEditor.owner], Data := utf8Bytes (jsonData "Piece One v2" "first") }
      (by decide)⟩,
    ⟨rfl, (editors_nonempty mockEnv "Piece One" "Piece One v2").2.2
      (Msg.updateData
        { Sender := "devcore1operator", ClassID := "ART-devcore1operator", ID := "1",
          Items := [{ Index := 0, Data := utf8Bytes (jsonData "Piece One v2" "first") }] })
      (by decide)
      (none, utf8Bytes (jsonData "Piece One v2" "first")) (by decide)⟩⟩

/-- C5: for a symbol `s` and the operator identity of a successful setup, the
issuance message built for `s` has Symbol `s` and Issuer the string form of the
sender address, the mint message built for `s` has ClassID
`BuildClassID(Symbol, sender address)` for that Symbol and that address, and a
second mint message built for `s` has the same ClassID. -/
theorem classID_issue_mint_agree (env : Env) (s : String) (bodyI bodyM bodyM2 : String)
    (reqI : CreateNFTClassRequest) (reqM reqM2 : MintNFTRequest) (bz bz2 : Bytes)
    (hI : env.decodeCreateNFTClassRequest bodyI = .ok reqI)
    (hM : env.decodeMintNFTRequest bodyM = .ok reqM)
    (hM2 : env.decodeMintNFTRequest bodyM2 = .ok reqM2)
    (hsI : reqI.ClassSymbol = s) (hsM : reqM.ClassSymbol = s) (hsM2 : reqM2.ClassSymbol = s)
    (hsetup : (setupClientContext env).err = none)
    (hmar : env.protoMarshal
        { Items := [{ Editors := [DataEditor.owner],
                      Data := utf8Bytes (jsonData reqM.Name reqM.Description) }] } = .ok bz)
    (hmar2 : env.protoMarshal
        { Items := [{ Editors := [DataEditor.owner],
                      Data := utf8Bytes (jsonData reqM2.Name reqM2.Description) }] } = .ok bz2) :
    ∃ mi mm mm2,
      sentMsgs (createNFTClassHandler env bodyI) = [Msg.issueClass mi] ∧
      sentMsgs (mintNFTHandler env bodyM) = [Msg.mint mm] ∧
      sentMsgs (mintNFTHandler env bodyM2) = [Msg.mint mm2] ∧
      mi.Symbol = s ∧
      mi.Issuer = env.addrString (setupClientContext env).senderAddress ∧
      mm.ClassID = env.BuildClassID mi.Symbol (setupClientContext env).senderAddress ∧
      mm2.ClassID = mm.ClassID := by
  refine ⟨{ Issuer := env.addrString (setupClientContext env).senderAddress,
            Symbol := reqI.ClassSymbol,
            Name := reqI.ClassName,
            Description := reqI.ClassDescription,
            Features := [ClassFeature.freezing] },
          { Sender := env.addrString (setupClientContext env).senderAddress,
            ClassID := env.BuildClassID reqM.ClassSymbol (setupClientContext env).senderAddress,
            ID := reqM.NFTID,
            Data := some
              { TypeUrl := env.dataDynamicTypeURL,
                Value := bz,
                cachedValue :=
                  { Items := [{ Editors := [DataEditor.owner],
                                Data := utf8Bytes (jsonData reqM.Name reqM.Description) }] } } },
          { Sender := env.addrString (setupClientContext env).senderAddress,
            ClassID := env.BuildClassID reqM2.ClassSymbol (setupClientContext env).senderAddress,
            ID := reqM2.NFTID,
            Data := some
              { TypeUrl := env.dataDynamicTypeURL,
                Value := bz2,
                cachedValue :=
                  { Items := [{ Editors := [DataEditor.owner],
                                Data := utf8Bytes (jsonData reqM2.Name reqM2.Description) }] } } },
          ?_, ?_, ?_, hsI, rfl, ?_, ?_⟩
  · unfold createNFTClassHandler
    simp only [hI, hsetup]
    split <;> simp [sentMsgs]
  · unfold mintNFTHandler
    simp only [hM, hsetup, NewAnyWithValue, hmar]
    split <;> simp [sentMsgs]
  · unfold mintNFTHandler
    simp only [hM2, hsetup, NewAnyWithValue, hmar2]
    split <;> simp [sentMsgs]
  · simp only [hsI, hsM]
  · simp only [hsM, hsM2]

/-- Witness of C5 in the mock environment, for the symbol `ART`. -/
theorem classID_issue_mint_agree_witness :
    ∃ mi mm mm2,
      sentMsgs (createNFTClassHandler mockEnv "Artworks") = [Msg.issueClass mi] ∧
      sentMsgs (mintNFTHandler mockEnv "Piece One") = [Msg.mint mm] ∧
      sentMsgs (mintNFTHandler mockEnv "Piece Two") = [Msg.mint mm2] ∧
      mi.Symbol = "ART" ∧
      mi.Issuer = mockEnv.addrString (setupClientContext mockEnv).senderAddress ∧
      mm.ClassID = mockEnv.BuildClassID mi.Symbol (setupClientContext mockEnv).senderAddress ∧
      mm2.ClassID = mm.ClassID :=
  classID_issue_mint_agree mockEnv "ART" "Artworks" "Piece One" "Piece Two"
    { ClassSymbol := "ART", ClassName := "Artworks", ClassDescription := "demo" }
    { ClassSymbol := "ART", NFTID := "1", Name := "Piece One", Description := "first" }
    { ClassSymbol := "ART", NFTID := "1", Name := "Piece Two", Description := "first" }
    (utf8Bytes (jsonData "Piece One" "first")) (utf8Bytes (jsonData "Piece Two" "first"))
    rfl rfl rfl rfl rfl rfl rfl (by simp [mockEnv]) (by simp [mockEnv])

/-- C8: whenever `setupClientContext` returns a non-nil error, the context and
the factory it returns are the zero values and the address is nil. -/
theorem setupClientContext_error_zero (env : Env)
    (herr : (setupClientContext env).err ≠ none) :
    (setupClientContext env).clientCtx = Context.zero ∧
    (setupClientContext env).txFactory = Factory.zero ∧
    (setupClientContext env).senderAddress = none := by
  unfold setupClientContext at herr ⊢
  cases hdial : env.grpcDial nodeAddress VersionTLS12 with
  | error e => exact ⟨rfl, rfl, rfl⟩
  | ok grpcClient =>
    simp only [hdial] at herr ⊢
    split at herr
    · rename_i e hacc
      simp [hacc]
    · rename_i senderInfo hacc
      cases haddr : env.GetAddress senderInfo with
      | error e => exact ⟨rfl, rfl, rfl⟩
      | ok senderAddress =>
        simp only [haddr] at herr
        exact absurd rfl herr

/-- Witness of C8: a dial failure, an account derivation failure and an address
extraction failure each return the error with zero values. -/
theorem setupClientContext_error_zero_witness :
    ((setupClientContext mockEnvDialFails).err = some "connection refused" ∧
      (setupClientContext mockEnvDialFails).clientCtx = Context.zero ∧
      (setupClientContext mockEnvDialFails).txFactory = Factory.zero ∧
      (setupClientContext mockEnvDialFails).senderAddress = none) ∧
    ((setupClientContext mockEnvAccountFails).err = some "invalid mnemonic" ∧
      (setupClientContext mockEnvAccountFails).clientCtx = Context.zero ∧
      (setupClientContext mockEnvAccountFails).txFactory = Factory.zero ∧
      (setupClientContext mockEnvAccountFails).senderAddress = none) ∧
    ((setupClientContext mockEnvAddressFails).err = some "no public key" ∧
      (setupClientContext mockEnvAddressFails).clientCtx = Context.zero ∧
      (setupClientContext mockEnvAddressFails).txFactory = Factory.zero ∧
      (setupClientContext mockEnvAddressFails).senderAddress = none) :=
  ⟨⟨rfl, setupClientContext_error_zero mockEnvDialFails (by decide)⟩,
    ⟨rfl, setupClientContext_error_zero mockEnvAccountFails (by decide)⟩,
    ⟨rfl, setupClientContext_error_zero mockEnvAddressFails (by decide)⟩⟩

/-- C10: the payload template inserts name and description without escaping, so
two distinct (name, description) pairs produce byte-identical payloads and the
mapping to payload bytes is not injective. -/
theorem jsonData_not_injective :
    (("x\", \"description\": \"y", "z") : String × String)
        ≠ ("x", "y\", \"description\": \"z") ∧
      jsonData "x\", \"description\": \"y" "z"
        = "\x7b\"name\": \"x\", \"description\": \"y\", \"description\": \"z\"\x7d" ∧
      jsonData "x" "y\", \"description\": \"z"
        = "\x7b\"name\": \"x\", \"description\": \"y\", \"description\": \"z\"\x7d" ∧
      utf8Bytes (jsonData "x\", \"description\": \"y" "z")
        = utf8Bytes (jsonData "x" "y\", \"description\": \"z") ∧
      ¬ Function.Injective (fun p : String × String => utf8Bytes (jsonData p.1 p.2)) := by
  have hne : (("x\", \"description\": \"y", "z") : String × String)
      ≠ ("x", "y\", \"description\": \"z") := by decide
  have h1 : jsonData "x\", \"description\": \"y" "z"
      = "\x7b\"name\": \"x\", \"description\": \"y\", \"description\": \"z\"\x7d" := by decide
  have h2 : jsonData "x" "y\", \"description\": \"z"
      = "\x7b\"name\": \"x\", \"description\": \"y\", \"description\": \"z\"\x7d" := by decide
  have hb : utf8Bytes (jsonData "x\", \"description\": \"y" "z")
      = utf8Bytes (jsonData "x" "y\", \"description\": \"z") := by rw [h1, h2]
  refine ⟨hne, h1, h2, hb, ?_⟩
  intro hinj
  exact hne (hinj hb)

/-- C6: in each handler a decode failure yields exactly the reply
`http.Error(err, 400)`, with no setup and no broadcast; a setup failure yields
exactly the setup call followed by the reply `http.Error(err, 500)`, with no
value wrapped and no broadcast; and a broadcast call occurs only in a trace
whose request decoded and whose setup succeeded, after the setup call. -/
theorem handlers_fail_fast (env : Env) (body : String) :
    ((∀ e, env.decodeCreateNFTClassRequest body = .error e →
        createNFTClassHandler env body = [Event.httpError e 400] ∧
        setupCalls (createNFTClassHandler env body) = 0 ∧
        broadcastCalls (createNFTClassHandler env body) = []) ∧
      (∀ req e, env.decodeCreateNFTClassRequest body = .ok req →
        (setupClientContext env).err = some e →
        createNFTClassHandler env body = [Event.setup, Event.httpError e 500] ∧
        wrappedValues (createNFTClassHandler env body) = [] ∧
        broadcastCalls (createNFTClassHandler env body) = []) ∧
      (broadcastCalls (createNFTClassHandler env body) ≠ [] →
        (∃ req, env.decodeCreateNFTClassRequest body = .ok req) ∧
        (setupClientContext env).err = none ∧
        ∃ rest, createNFTClassHandler env body = Event.setup :: rest)) ∧
    ((∀ e, env.decodeMintNFTRequest body = .error e →
        mintNFTHandler env body = [Event.httpError e 400] ∧
        setupCalls (mintNFTHandler env body) = 0 ∧
        broadcastCalls (mintNFTHandler env body) = []) ∧
      (∀ req e, env.decodeMintNFTRequest body = .ok req →
        (setupClientContext env).err = some e →
        mintNFTHandler env body = [Event.setup, Event.httpError e 500] ∧
        wrappedValues (mintNFTHandler env body) = [] ∧
        broadcastCalls (mintNFTHandler env body) = []) ∧
      (broadcastCalls (mintNFTHandler env body) ≠ [] →
        (∃ req, env.decodeMintNFTRequest body = .ok req) ∧
        (setupClientContext env).err = none ∧
        ∃ rest, mintNFTHandler env body = Event.setup :: rest)) ∧
    ((∀ e, env.decodeUpdateNFTDataRequest body = .error e →
        updateNFTDataHandler env body = [Event.httpError e 400] ∧
        setupCalls (updateNFTDataHandler env body) = 0 ∧
        broadcastCalls (updateNFTDataHandler env body) = []) ∧
      (∀ req e, env.decodeUpdateNFTDataRequest body = .ok req →
        (setupClientContext env).err = some e →
        updateNFTDataHandler env body = [Event.setup, Event.httpError e 500] ∧
        wrappedValues (updateNFTDataHandler env body) = [] ∧
        broadcastCalls (updateNFTDataHandler env body) = []) ∧
      (broadcastCalls (updateNFTDataHandler env body) ≠ [] →
        (∃ req, env.decodeUpdateNFTDataRequest body = .ok req) ∧
        (setupClientContext env).err = none ∧
        ∃ rest, updateNFTDataHandler env body = Event.setup :: rest)) := by
  refine ⟨⟨?_, ?_, ?_⟩, ⟨?_, ?_, ?_⟩, ⟨?_, ?_, ?_⟩⟩
  · intro e h
    simp [createNFTClassHandler, h, StatusBadRequest, setupCalls, broadcastCalls]
  · intro req e h1 h2
    simp [createNFTClassHandler, h1, h2, StatusInternalServerError, wrappedValues,
      broadcastCalls]
  · intro hne
    cases h1 : env.decodeCreateNFTClassRequest body with
    | error e => simp [createNFTClassHandler, h1, broadcastCalls] at hne
    | ok req =>
      cases h2 : (setupClientContext env).err with
      | some e => simp [createNFTClassHandler, h1, h2, broadcastCalls] at hne
      | none =>
        refine ⟨⟨req, rfl⟩, rfl, ?_⟩
        simp only [createNFTClassHandler, h1, h2]
        split <;> exact ⟨_, rfl⟩
  · intro e h
    simp [mintNFTHandler, h, StatusBadRequest, setupCalls, broadcastCalls]
  · intro req e h1 h2
    simp [mintNFTHandler, h1, h2, StatusInternalServerError, wrappedValues, broadcastCalls]
  · intro hne
    cases h1 : env.decodeMintNFTRequest body with
    | error e => simp [mintNFTHandler, h1, broadcastCalls] at hne
    | ok req =>
      cases h2 : (setupClientContext env).err with
      | some e => simp [mintNFTHandler, h1, h2, broadcastCalls] at hne
      | none =>
        refine ⟨⟨req, rfl⟩, rfl, ?_⟩
        simp only [mintNFTHandler, h1, h2]
        split
        · exact ⟨_, rfl⟩
        · split <;> exact ⟨_, rfl⟩
  · intro e h
    simp [updateNFTDataHandler, h, StatusBadRequest, setupCalls, broadcastCalls]
  · intro req e h1 h2
    simp [updateNFTDataHandler, h1, h2, StatusInternalServerError, wrappedValues,
      broadcastCalls]
  · intro hne
    cases h1 : env.decodeUpdateNFTDataRequest body with
    | error e => simp [updateNFTDataHandler, h1, broadcastCalls] at hne
    | ok req =>
      cases h2 : (setupClientContext env).err with
      | some e => simp [updateNFTDataHandler, h1, h2, broadcastCalls] at hne
      | none =>
        refine ⟨⟨req, rfl⟩, rfl, ?_⟩
        simp only [updateNFTDataHandler, h1, h2]
        split
        · exact ⟨_, rfl⟩
        · split <;> exact ⟨_, rfl⟩

/-- Witness of C6: the empty body fails to decode in the mock environment, and
setup fails in the mock environment whose node cannot be dialled. -/
theorem handlers_fail_fast_witness :
    (mockEnv.decodeMintNFTRequest "" = .error "EOF" ∧
      mintNFTHandler mockEnv "" = [Event.httpError "EOF" 400] ∧
      setupCalls (mintNFTHandler mockEnv "") = 0 ∧
      broadcastCalls (mintNFTHandler mockEnv "") = []) ∧
    (mockEnvDialFails.decodeUpdateNFTDataRequest "Piece One v2"
        = .ok { ClassID := "ART-devcore1operator", NFTID := "1", Name := "Piece One v2",
                Description := "first" } ∧
      (setupClientContext mockEnvDialFails).err = some "connection refused" ∧
      updateNFTDataHandler mockEnvDialFails "Piece One v2"
        = [Event.setup, Event.httpError "connection refused" 500] ∧
      wrappedValues (updateNFTDataHandler mockEnvDialFails "Piece One v2") = [] ∧
      broadcastCalls (updateNFTDataHandler mockEnvDialFails "Piece One v2") = []) ∧
    (broadcastCalls (createNFTClassHandler mockEnv "Artworks") ≠ [] ∧
      (∃ req, mockEnv.decodeCreateNFTClassRequest "Artworks" = .ok req) ∧
      (setupClientContext mockEnv).err = none ∧
      ∃ rest, createNFTClassHandler mockEnv "Artworks" = Event.setup :: rest) :=
  ⟨⟨rfl, (handlers_fail_fast mockEnv "").2.1.1 "EOF" rfl⟩,
    ⟨rfl, rfl, (handlers_fail_fast mockEnvDialFails "Piece One v2").2.2.2.1
      { ClassID := "ART-devcore1operator", NFTID := "1", Name := "Piece One v2",
        Description := "first" } "connection refused" rfl rfl⟩,
    ⟨by simp [createNFTClassHandler, mockEnv, setupClientContext, broadcastCalls],
      (handlers_fail_fast mockEnv "Artworks").1.2.2
        (by simp [createNFTClassHandler, mockEnv, setupClientContext, broadcastCalls])⟩⟩

/-- C7: for a request that decodes and a setup that succeeds, each handler
invokes broadcast at most once, with exactly one message, writes its
confirmation message if and only if that invocation returned no error, and on a
broadcast error replies with exactly the error text and status 500, without a
confirmation. -/
theorem handlers_broadcast_discipline (env : Env) (body : String) :
    (∀ req, env.decodeCreateNFTClassRequest body = .ok req →
      (setupClientContext env).err = none →
      BroadcastDiscipline (createNFTClassHandler env body) "NFT class created successfully") ∧
    (∀ req, env.decodeMintNFTRequest body = .ok req →
      (setupClientContext env).err = none →
      BroadcastDiscipline (mintNFTHandler env body) "NFT minted successfully") ∧
    (∀ req, env.decodeUpdateNFTDataRequest body = .ok req →
      (setupClientContext env).err = none →
      BroadcastDiscipline (updateNFTDataHandler env body) "NFT data updated successfully") := by
  refine ⟨?_, ?_, ?_⟩
  · intro req h1 h2
    simp only [createNFTClassHandler, h1, h2]
    split <;>
      simp [BroadcastDiscipline, broadcastCalls, broadcastResults, confirmations,
        errorReplies, StatusInternalServerError]
  · intro req h1 h2
    simp only [mintNFTHandler, h1, h2]
    split
    · simp [BroadcastDiscipline, broadcastCalls, broadcastResults, confirmations,
        errorReplies, StatusInternalServerError]
    · split <;>
        simp [BroadcastDiscipline, broadcastCalls, broadcastResults, confirmations,
          errorReplies, StatusInternalServerError]
  · intro req h1 h2
    simp only [updateNFTDataHandler, h1, h2]
    split
    · simp [BroadcastDiscipline, broadcastCalls, broadcastResults, confirmations,
        errorReplies, StatusInternalServerError]
    · split <;>
        simp [BroadcastDiscipline, broadcastCalls, broadcastResults, confirmations,
          errorReplies, StatusInternalServerError]

/-- Witness of C7: with the accepting mock remote the mint handler broadcasts
once and confirms; with the rejecting mock remote it broadcasts once and
replies with the error text and status 500, without a confirmation. -/
theorem handlers_broadcast_discipline_witness :
    (BroadcastDiscipline (mintNFTHandler mockEnv "Piece One") "NFT minted successfully" ∧
      broadcastResults (mintNFTHandler mockEnv "Piece One") = [.ok { TxHash := "5F2A" }] ∧
      confirmations (mintNFTHandler mockEnv "Piece One")
        = [{ Message := "NFT minted successfully" }]) ∧
    (BroadcastDiscipline (mintNFTHandler mockEnvRemoteRejects "Piece One")
        "NFT minted successfully" ∧
      broadcastResults (mintNFTHandler mockEnvRemoteRejects "Piece One")
        = [.error "execution error: class not found"] ∧
      errorReplies (mintNFTHandler mockEnvRemoteRejects "Piece One")
        = [("execution error: class not found", 500)] ∧
      confirmations (mintNFTHandler mockEnvRemoteRejects "Piece One") = []) ∧
    BroadcastDiscipline (createNFTClassHandler mockEnv "Artworks")
      "NFT class created successfully" ∧
    BroadcastDiscipline (updateNFTDataHandler mockEnvRemoteRejects "Piece One v2")
      "NFT data updated successfully" :=
  ⟨⟨(handlers_broadcast_discipline mockEnv "Piece One").2.1
        { ClassSymbol := "ART", NFTID := "1", Name := "Piece One", Description := "first" }
        rfl rfl,
      rfl, rfl⟩,
    ⟨(handlers_broadcast_discipline mockEnvRemoteRejects "Piece One").2.1
        { ClassSymbol := "ART", NFTID := "1", Name := "Piece One", Description := "first" }
        rfl rfl,
      rfl, rfl, rfl⟩,
    (handlers_broadcast_discipline mockEnv "Artworks").1
      { ClassSymbol := "ART", ClassName := "Artworks", ClassDescription := "demo" } rfl rfl,
    (handlers_broadcast_discipline mockEnvRemoteRejects "Piece One v2").2.2
      { ClassID := "ART-devcore1operator", NFTID := "1", Name := "Piece One v2",
        Description := "first" } rfl rfl⟩

/-- Overwriting the same index with the same bytes twice is overwriting it once. -/
theorem overwriteItem_idem (items : List DataDynamicItem) (i : Nat) (data : Bytes) :
    overwriteItem (overwriteItem items i data) i data = overwriteItem items i data := by
  induction items generalizing i with
  | nil => rfl
  | cons it rest ih =>
    cases i with
    | zero => rfl
    | succ n => simp only [overwriteItem, ih]

/-- Applying an update message with a single item to the mock remote twice is
applying it once. -/
theorem remoteApply_single_idem (store : List StoredNFT) (m : MsgUpdateData)
    (u : DataDynamicIndexedItem) (hu : m.Items = [u]) :
    remoteApply (remoteApply store (Msg.updateData m)) (Msg.updateData m)
      = remoteApply store (Msg.updateData m) := by
  simp only [remoteApply, List.map_map]
  apply List.map_congr_left
  intro nft _
  by_cases hc : nft.ClassID = m.ClassID ∧ nft.ID = m.ID
  · simp [Function.comp, hc, hu, applyItems, overwriteItem_idem]
  · simp [Function.comp, hc]

/-- C9: the update message depends only on the request and the string form of
the sender: two invocations for the same (classID, nftID, name, description)
and the same sender pass the same single message to broadcast; and against the
mock remote that overwrites the item at each message index, submitting the
messages of the second invocation after those of the first leaves the stored
data as the first invocation left it. -/
theorem updateNFTData_idempotent (env1 env2 : Env) (body1 body2 : String)
    (req : UpdateNFTDataRequest) (bz1 bz2 : Bytes) (store : List StoredNFT)
    (hdec1 : env1.decodeUpdateNFTDataRequest body1 = .ok req)
    (hdec2 : env2.decodeUpdateNFTDataRequest body2 = .ok req)
    (hsetup1 : (setupClientContext env1).err = none)
    (hsetup2 : (setupClientContext env2).err = none)
    (hsender : env1.addrString (setupClientContext env1).senderAddress
      = env2.addrString (setupClientContext env2).senderAddress)
    (hmar1 : env1.protoMarshal
        { Items := [{ Editors := [DataEditor.owner],
                      Data := utf8Bytes (jsonData req.Name req.Description) }] } = .ok bz1)
    (hmar2 : env2.protoMarshal
        { Items := [{ Editors := [DataEditor.owner],
                      Data := utf8Bytes (jsonData req.Name req.Description) }] } = .ok bz2) :
    sentMsgs (updateNFTDataHandler env1 body1) = [Msg.updateData
      { Sender := env1.addrString (setupClientContext env1).senderAddress,
        ClassID := req.ClassID,
        ID := req.NFTID,
        Items := [{ Index := 0, Data := utf8Bytes (jsonData req.Name req.Description) }] }] ∧
    sentMsgs (updateNFTDataHandler env2 body2) = sentMsgs (updateNFTDataHandler env1 body1) ∧
    remoteApplyAll (remoteApplyAll store (sentMsgs (updateNFTDataHandler env1 body1)))
        (sentMsgs (updateNFTDataHandler env2 body2))
      = remoteApplyAll store (sentMsgs (updateNFTDataHandler env1 body1)) := by
  have h1 : sentMsgs (updateNFTDataHandler env1 body1) = [Msg.updateData
      { Sender := env1.addrString (setupClientContext env1).senderAddress,
        ClassID := req.ClassID,
        ID := req.NFTID,
        Items := [{ Index := 0,
                    Data := utf8Bytes (jsonData req.Name req.Description) }] }] := by
    simp only [updateNFTDataHandler, hdec1, hsetup1, NewAnyWithValue, hmar1]
    split <;> simp [sentMsgs]
  have h2 : sentMsgs (updateNFTDataHandler env2 body2) = [Msg.updateData
      { Sender := env1.addrString (setupClientContext env1).senderAddress,
        ClassID := req.ClassID,
        ID := req.NFTID,
        Items := [{ Index := 0,
                    Data := utf8Bytes (jsonData req.Name req.Description) }] }] := by
    simp only [updateNFTDataHandler, hdec2, hsetup2, NewAnyWithValue, hmar2, hsender]
    split <;> simp [sentMsgs]
  refine ⟨h1, by rw [h1, h2], ?_⟩
  rw [h1, h2]
  simp only [remoteApplyAll, List.foldl_cons, List.foldl_nil]
  exact remoteApply_single_idem store _ _ rfl

/-- Witness of C9: the mock remote holds one instance whose item 0 is the minted
payload; two update invocations (one against the accepting, one against the
rejecting mock environment) build the same message, and applying it twice
leaves item 0 overwritten exactly as applying it once does. -/
theorem updateNFTData_idempotent_witness :
    sentMsgs (updateNFTDataHandler mockEnvRemoteRejects "Piece One v2")
        = sentMsgs (updateNFTDataHandler mockEnv "Piece One v2") ∧
      remoteApplyAll
          [{ ClassID := "ART-devcore1operator", ID := "1",
             Items := [{ Editors := [DataEditor.owner],
                         Data := utf8Bytes (jsonData "Piece One" "first") }] }]
          (sentMsgs (updateNFTDataHandler mockEnv "Piece One v2"))
        = [{ ClassID := "ART-devcore1operator", ID := "1",
             Items := [{ Editors := [DataEditor.owner],
                         Data := utf8Bytes (jsonData "Piece One v2" "first") }] }] ∧
      remoteApplyAll
          (remoteApplyAll
            [{ ClassID := "ART-devcore1operator", ID := "1",
               Items := [{ Editors := [DataEditor.owner],
                           Data := utf8Bytes (jsonData "Piece One" "first") }] }]
            (sentMsgs (updateNFTDataHandler mockEnv "Piece One v2")))
          (sentMsgs (updateNFTDataHandler mockEnvRemoteRejects "Piece One v2"))
        = remoteApplyAll
          [{ ClassID := "ART-devcore1operator", ID := "1",
             Items := [{ Editors := [DataEditor.owner],
                         Data := utf8Bytes (jsonData "Piece One" "first") }] }]
          (sentMsgs (updateNFTDataHandler mockEnv "Piece One v2")) :=
  ⟨(updateNFTData_idempotent mockEnv mockEnvRemoteRejects "Piece One v2" "Piece One v2"
      { ClassID := "ART-devcore1operator", NFTID := "1", Name := "Piece One v2",
        Description := "first" }
      (utf8Bytes (jsonData "Piece One v2" "first")) (utf8Bytes (jsonData "Piece One v2" "first"))
      [] rfl rfl rfl rfl rfl (by simp [mockEnv])
      (by simp [mockEnvRemoteRejects, mockEnv])).2.1,
    by decide,
    (updateNFTData_idempotent mockEnv mockEnvRemoteRejects "Piece One v2" "Piece One v2"
      { ClassID := "ART-devcore1operator", NFTID := "1", Name := "Piece One v2",
        Description := "first" }
      (utf8Bytes (jsonData "Piece One v2" "first")) (utf8Bytes (jsonData "Piece One v2" "first"))
      [{ ClassID := "ART-devcore1operator", ID := "1",
         Items := [{ Editors := [DataEditor.owner],
                     Data := utf8Bytes (jsonData "Piece One" "first") }] }]
      rfl rfl rfl rfl rfl (by simp [mockEnv])
      (by simp [mockEnvRemoteRejects, mockEnv])).2.2⟩

end NftUpdateData
